import Mathlib

/-!
Verification of the Uber SK fare-estimation program
(`src/uber_clone_optimized.py`).

The pricing engine and the input validators are embedded as executable
Lean definitions.  Monetary amounts and distances (Python `float`s in the
source) are modelled by exact rationals `ℚ`; hours are `ℕ`; Python
strings are Lean `String`s, processed as `List Char`, with `pyStrip` and
`pySplit` modelling `str.strip()` and `str.split(sep)`.  Where the
exact-rational idealization of floats is observable — the end-to-end
fare equalities — `roundDouble` models IEEE-754 binary64 rounding
(round to nearest, ties to even) and `calculate_price_fp` re-runs the
pricing fold with every numeric literal and every `+`/`*` rounded, so
those claims are settled against the doubles the program really
computes.  Fallible
Python code (functions raising `ValueError`) is modelled with
`Except String`, where the `try/except` re-raise structure of the
source is kept explicit: an inner function produces the error raised
inside the `try` block and an outer wrapper replaces any such error with
the message of the `except` clause, exactly as the Python control flow
does.
-/

namespace UberSK

/-- The three cab tiers (`CabType` enum in the source, lines 16-25). -/
inductive CabType
  | UBER_GO
  | UBER_SEDAN
  | UBER_XL
deriving DecidableEq

/-- `display_name` field of each `CabType` member. -/
def CabType.display_name : CabType → String
  | .UBER_GO => "Uber Go"
  | .UBER_SEDAN => "Uber Sedan"
  | .UBER_XL => "Uber XL"

/-- `base_fare` field of each `CabType` member. -/
def CabType.base_fare : CabType → ℚ
  | .UBER_GO => 50
  | .UBER_SEDAN => 80
  | .UBER_XL => 120

/-- `per_km_rate` field of each `CabType` member. -/
def CabType.per_km_rate : CabType → ℚ
  | .UBER_GO => 12
  | .UBER_SEDAN => 18
  | .UBER_XL => 25

/-- Declaration order of the `CabType` enum, as Python iterates it in
`for cab_type in CabType`. -/
def cabTypeList : List CabType := [.UBER_GO, .UBER_SEDAN, .UBER_XL]

/-- The three surcharge kinds (`SurchargeType` enum, lines 28-38). -/
inductive SurchargeType
  | RUSH_HOUR
  | MIDNIGHT
  | OUTSTATION
deriving DecidableEq

/-- `code` field of each `SurchargeType` member. -/
def SurchargeType.code : SurchargeType → String
  | .RUSH_HOUR => "rush"
  | .MIDNIGHT => "midnight"
  | .OUTSTATION => "outstation"

/-- `multiplier` field of each `SurchargeType` member
(`0.15`, `0.15`, `0.14` in the source). -/
def SurchargeType.multiplier : SurchargeType → ℚ
  | .RUSH_HOUR => 15/100
  | .MIDNIGHT => 15/100
  | .OUTSTATION => 14/100

/-- `applies_to` field of each `SurchargeType` member. -/
def SurchargeType.applies_to : SurchargeType → String
  | .RUSH_HOUR => "per_km"
  | .MIDNIGHT => "base_fare"
  | .OUTSTATION => "per_km"

/-- `message` field of each `SurchargeType` member. -/
def SurchargeType.message : SurchargeType → String
  | .RUSH_HOUR => "⏰ Prices increased due to peak hours"
  | .MIDNIGHT => "🌙 Prices increased due to late night travel"
  | .OUTSTATION => "🛣️ Prices increased due to outstation location"

/-- Declaration order of the `SurchargeType` enum, as Python iterates it
in `for surcharge in SurchargeType`. -/
def surchargeTypeList : List SurchargeType := [.RUSH_HOUR, .MIDNIGHT, .OUTSTATION]

namespace PricingConstants

/-- `PricingConstants.OUTSTATION_THRESHOLD = 200.0` (line 43). -/
def OUTSTATION_THRESHOLD : ℚ := 200

/-- `PricingConstants.RUSH_HOURS = frozenset([(8, 9), (17, 18)])`
(line 44); only membership is used, so the set is a list of pairs. -/
def RUSH_HOURS : List (ℕ × ℕ) := [(8, 9), (17, 18)]

/-- `PricingConstants.MIDNIGHT_HOURS = frozenset(range(23, 24)) |
frozenset(range(0, 5))` (line 45); only membership is used. -/
def MIDNIGHT_HOURS : List ℕ := List.range' 23 1 ++ List.range 5

end PricingConstants

/-- `OptimizedPricingEngine._build_surcharge_lookup` (lines 98-104): the
condition dictionary, keyed by surcharge code, applied to
`(hour, distance)`.  `h in range(start, end + 1)` is
`start ≤ h ∧ h ≤ end`. -/
def surcharge_conditions (code : String) (h : ℕ) (d : ℚ) : Bool :=
  if code = "rush" then
    PricingConstants.RUSH_HOURS.any (fun p => decide (p.1 ≤ h ∧ h ≤ p.2))
  else if code = "midnight" then
    decide (h ∈ PricingConstants.MIDNIGHT_HOURS)
  else if code = "outstation" then
    decide (PricingConstants.OUTSTATION_THRESHOLD < d)
  else
    false

/-- `OptimizedPricingEngine.calculate_price` (lines 106-120): starting
from the tier's base fare and per-km rate, visit the surcharges in enum
order; when the surcharge's condition holds of `(hour, distance_km)`,
multiply the field named by `applies_to` by `1 + multiplier`; finally
return `base_fare + distance_km * per_km_rate` of the adjusted fields.
The `lru_cache` decoration is a pure-function memoization with no
behavioural content and is not modelled. -/
def calculate_price (cab_type : CabType) (distance_km : ℚ) (hour : ℕ) : ℚ :=
  let rates := surchargeTypeList.foldl
    (fun (acc : ℚ × ℚ) (surcharge : SurchargeType) =>
      if surcharge_conditions surcharge.code hour distance_km then
        if surcharge.applies_to = "base_fare" then
          (acc.1 * (1 + surcharge.multiplier), acc.2)
        else
          (acc.1, acc.2 * (1 + surcharge.multiplier))
      else acc)
    (cab_type.base_fare, cab_type.per_km_rate)
  rates.1 + distance_km * rates.2

/-- `CabOption` dataclass (lines 81-88): a cab type paired with its
computed price. -/
structure CabOption where
  cab_type : CabType
  price : ℚ
deriving DecidableEq

/-- `OptimizedPricingEngine.get_all_options` (lines 122-127): one
`CabOption` per tier, in enum declaration order. -/
def get_all_options (distance_km : ℚ) (hour : ℕ) : List CabOption :=
  cabTypeList.map (fun cab_type => ⟨cab_type, calculate_price cab_type distance_km hour⟩)

/-- `OptimizedPricingEngine.get_surcharge_messages` (lines 129-136): the
loop appending the message of every applicable surcharge, in enum
declaration order. -/
def get_surcharge_messages (distance_km : ℚ) (hour : ℕ) : List String :=
  surchargeTypeList.foldl
    (fun messages surcharge =>
      if surcharge_conditions surcharge.code hour distance_km then
        messages ++ [surcharge.message]
      else messages)
    []

/-! ### String primitives used by the validators

Python strings are modelled as `List Char`; `pyStrip` models
`str.strip()`, `pySplit` models `str.split(sep)` for a one-character
separator, `pyInt` models `int(s)` and `pyFloat` models `float(s)` on
the decimal forms the program meets (optional surrounding whitespace,
optional sign, digits with at most one decimal point; exponent
notation, underscore grouping, `inf`/`nan` and non-ASCII digits, which
Python's parsers also accept, are not modelled — no claim depends on
them). -/

/-- Python `str.strip()`: drop leading and trailing whitespace. -/
def pyStrip (cs : List Char) : List Char :=
  ((cs.dropWhile Char.isWhitespace).reverse.dropWhile Char.isWhitespace).reverse

/-- Python `str.split(sep)`: cut at every occurrence of `sep`, keeping
empty pieces; the result always has one more piece than there are
separators. -/
def pySplit (sep : Char) : List Char → List (List Char)
  | [] => [[]]
  | c :: rest =>
    match pySplit sep rest with
    | [] => [[]]
    | piece :: pieces =>
      if c = sep then [] :: piece :: pieces
      else (c :: piece) :: pieces

/-- Numeric value of a list of decimal digit characters. -/
def digitsVal (cs : List Char) : ℕ :=
  cs.foldl (fun acc c => 10 * acc + (c.toNat - 48)) 0

/-- Python `int(s)` on a piece of a string: strip whitespace, optional
sign, then a non-empty run of decimal digits. -/
def pyInt (cs : List Char) : Option ℤ :=
  match pyStrip cs with
  | '-' :: body =>
    if body ≠ [] ∧ body.all Char.isDigit then some (-(digitsVal body : ℤ)) else none
  | '+' :: body =>
    if body ≠ [] ∧ body.all Char.isDigit then some ((digitsVal body : ℤ)) else none
  | body =>
    if body ≠ [] ∧ body.all Char.isDigit then some ((digitsVal body : ℤ)) else none

/-- Digits with at most one decimal point, read as an unsigned rational:
`"12.5"` is `12 + 5 / 10`, `"12."` is `12`, `".5"` is `5 / 10`. -/
def pyFloatBody (cs : List Char) : Option ℚ :=
  match pySplit '.' cs with
  | [ip] =>
    if ip ≠ [] ∧ ip.all Char.isDigit then some ((digitsVal ip : ℚ)) else none
  | [ip, fp] =>
    if (ip ≠ [] ∨ fp ≠ []) ∧ ip.all Char.isDigit ∧ fp.all Char.isDigit then
      some ((digitsVal ip : ℚ) + (digitsVal fp : ℚ) / (10 : ℚ) ^ fp.length)
    else none
  | _ => none

/-- Python `float(s)` on decimal forms: strip whitespace, optional
sign, then digits with at most one decimal point. -/
def pyFloat (s : String) : Option ℚ :=
  match pyStrip s.data with
  | '-' :: body => Option.map (fun q => -q) (pyFloatBody body)
  | '+' :: body => pyFloatBody body
  | body => pyFloatBody body

/-! ### `FastInputValidator` (lines 139-167)

Each `validate_*_try` function is the body of the Python `try` block,
producing the error the block raises; the wrapper function applies
the `except ValueError` clause, which replaces every such error — the
parse failure of `float`/`int` AND the explicit `raise` statements in
the same `try` block — with the single message of the `except`
clause. -/

/-- `FastInputValidator.validate_non_empty` (lines 142-145). -/
def validate_non_empty (value : String) : Bool :=
  pyStrip value.data ≠ []

/-- The `try` block of `validate_distance` (lines 150-154): parse the
string with `float`, then raise `"Distance must be positive"` when the
parsed value is `≤ 0`. -/
def validate_distance_try (distance : String) : Except String ℚ :=
  match pyFloat distance with
  | none => Except.error "could not convert string to float"
  | some dist =>
    if dist ≤ 0 then Except.error "Distance must be positive" else Except.ok dist

/-- `FastInputValidator.validate_distance` (lines 147-156).  The
`except ValueError` clause catches both the parse failure of `float`
and the explicit `raise ValueError("Distance must be positive")`
raised inside the same `try` block, and re-raises
`"Invalid distance format"` in either case. -/
def validate_distance (distance : String) : Except String ℚ :=
  match validate_distance_try distance with
  | Except.ok v => Except.ok v
  | Except.error _ => Except.error "Invalid distance format"

/-- One decimal digit character. -/
def digitChar (n : ℕ) : Char := Char.ofNat (48 + n)

/-- Python's zero-padded two-digit format `%02d`, for `0 ≤ n ≤ 99` --
the validators only format values already checked to lie in
`[0, 59]`. -/
def pad2 (n : ℤ) : String :=
  String.mk [digitChar (n.toNat / 10), digitChar (n.toNat % 10)]

/-- The `try` block of `validate_time` (lines 161-165): strip, split on
`':'`, unpack exactly two pieces, convert each with `int`, range-check,
and return the zero-padded normal form. -/
def validate_time_try (time_str : String) : Except String String :=
  match pySplit ':' (pyStrip time_str.data) with
  | [a, b] =>
    match pyInt a, pyInt b with
    | some hour, some minute =>
      if 0 ≤ hour ∧ hour ≤ 23 ∧ 0 ≤ minute ∧ minute ≤ 59 then
        Except.ok (pad2 hour ++ ":" ++ pad2 minute)
      else Except.error "Hour must be 0-23, minute must be 0-59"
    | _, _ => Except.error "invalid literal for int() with base 10"
  | _ => Except.error "values to unpack"

/-- `FastInputValidator.validate_time` (lines 158-167); every failure
of the `try` block is re-raised as `"Time must be in HH:MM format"`. -/
def validate_time (time_str : String) : Except String String :=
  match validate_time_try time_str with
  | Except.ok v => Except.ok v
  | Except.error _ => Except.error "Time must be in HH:MM format"

/-! ### `BookingRequest` (lines 48-78) -/

/-- The `BookingRequest` dataclass fields. -/
structure BookingRequest where
  username : String
  destination : String
  distance_km : ℚ
  booking_time : String

/-- The `try` block of `BookingRequest._validate_time_format`
(lines 67-70): split `booking_time` on `':'` (no strip here, unlike
`validate_time`), unpack exactly two pieces, convert each with `int`,
and range-check. -/
def validate_time_format_try (booking_time : String) : Except String Unit :=
  match pySplit ':' booking_time.data with
  | [a, b] =>
    match pyInt a, pyInt b with
    | some hour, some minute =>
      if 0 ≤ hour ∧ hour ≤ 23 ∧ 0 ≤ minute ∧ minute ≤ 59 then Except.ok ()
      else Except.error "Invalid time range"
    | _, _ => Except.error "invalid literal for int() with base 10"
  | _ => Except.error "values to unpack"

/-- `BookingRequest._validate_time_format` (lines 65-72); every failure
of the `try` block is re-raised as `"Time must be in HH:MM format"`. -/
def validate_time_format (booking_time : String) : Except String Unit :=
  match validate_time_format_try booking_time with
  | Except.ok _ => Except.ok ()
  | Except.error _ => Except.error "Time must be in HH:MM format"

/-- `BookingRequest.__post_init__` (lines 56-63): constructing a
`BookingRequest` checks, in order, that the distance is positive, the
username and destination are non-blank after stripping, and the
booking time passes `_validate_time_format`; the first failing check
raises. -/
def mkBookingRequest (username destination : String) (distance_km : ℚ)
    (booking_time : String) : Except String BookingRequest :=
  if distance_km ≤ 0 then Except.error "Distance must be positive"
  else if pyStrip username.data = [] then Except.error "Username cannot be empty"
  else if pyStrip destination.data = [] then Except.error "Destination cannot be empty"
  else
    match validate_time_format booking_time with
    | Except.ok _ => Except.ok ⟨username, destination, distance_km, booking_time⟩
    | Except.error e => Except.error e

/-! ### IEEE-754 binary64 model

The source computes with Python `float`s, i.e. IEEE-754 binary64
values.  A finite double is an exact rational, so the float semantics
is modelled inside `ℚ`: `roundDouble` sends an exact rational to the
value of the nearest double (round to nearest, ties to even), and
`fadd`/`fmul` are double addition and multiplication (compute exactly,
then round).  Overflow and subnormals are not modelled: every value in
the priced scenarios is positive and normal.  Double comparisons are
exact comparisons of the represented rationals, so the surcharge
conditions need no separate float version. -/

/-- Round to the nearest integer, ties to the even integer. -/
def rne (x : ℚ) : ℤ :=
  if x - ⌊x⌋ < 1/2 then ⌊x⌋
  else if 1/2 < x - ⌊x⌋ then ⌊x⌋ + 1
  else if ⌊x⌋ % 2 = 0 then ⌊x⌋ else ⌊x⌋ + 1

/-- IEEE-754 binary64 rounding of an exact rational in the normal
range: a positive `q` with `2^e ≤ q < 2^(e+1)` has unit in the last
place `2^(e-52)` (53-bit significand), and is rounded to the nearest
multiple of it, ties to even. -/
def roundDouble (q : ℚ) : ℚ :=
  if q = 0 then 0
  else if q < 0 then
    -((rne (-q / 2 ^ (Int.log 2 (-q) - 52)) : ℚ) * 2 ^ (Int.log 2 (-q) - 52))
  else (rne (q / 2 ^ (Int.log 2 q - 52)) : ℚ) * 2 ^ (Int.log 2 q - 52)

/-- Double addition: exact sum, then one rounding. -/
def fadd (x y : ℚ) : ℚ := roundDouble (x + y)

/-- Double multiplication: exact product, then one rounding. -/
def fmul (x y : ℚ) : ℚ := roundDouble (x * y)

/-- `calculate_price` under the source's float semantics: the same
fold as `calculate_price`, with each stored constant rounded to its
double (the enum literals `0.15`/`0.14` are not exactly representable)
and each `+`/`*` rounded — `1 + multiplier` is one rounded addition,
each `*=` one rounded multiplication, and the final
`base_fare + distance_km * per_km_rate` one rounded multiplication
followed by one rounded addition.  `distance_km` is assumed to be a
double value already (10, 50 and 300 are). -/
def calculate_price_fp (cab_type : CabType) (distance_km : ℚ) (hour : ℕ) : ℚ :=
  let rates := surchargeTypeList.foldl
    (fun (acc : ℚ × ℚ) (surcharge : SurchargeType) =>
      if surcharge_conditions surcharge.code hour distance_km then
        if surcharge.applies_to = "base_fare" then
          (fmul acc.1 (fadd 1 (roundDouble surcharge.multiplier)), acc.2)
        else
          (acc.1, fmul acc.2 (fadd 1 (roundDouble surcharge.multiplier)))
      else acc)
    (roundDouble cab_type.base_fare, roundDouble cab_type.per_km_rate)
  fadd rates.1 (fmul distance_km rates.2)

/-! ### Spec-side definitions

These follow the specification's words, not the code, and are compared
with the code-side definitions in the refinement theorems. -/

/-- Follows the spec's words: start from the tier's base fare and
per-unit rate; visit the rules in the fixed order PeakHour (predicate
hour ∈ {8, 9, 17, 18}, target per-unit rate, multiplier 15%),
LateNight (predicate hour ∈ {23, 0, 1, 2, 3, 4}, target base fare,
multiplier 15%), LongDistanceOutOfTown (predicate distance > 200,
target per-unit rate, multiplier 14%); a rule whose predicate holds
multiplies its target field by `1 + multiplier`, multipliers on the
same field compounding multiplicatively in that order; the result is
adjusted base fare + distance × adjusted per-unit rate. -/
def specPrice (c : CabType) (d : ℚ) (h : ℕ) : ℚ :=
  (c.base_fare * (if h = 23 ∨ h ≤ 4 then 1 + (15 : ℚ)/100 else 1))
  + d * (c.per_km_rate * (if h = 8 ∨ h = 9 ∨ h = 17 ∨ h = 18 then 1 + (15 : ℚ)/100 else 1)
        * (if 200 < d then 1 + (14 : ℚ)/100 else 1))

/-- Follows the spec's words for `validate_time` input: after
stripping, the string consists of two colon-separated integer
components with hour in `[0, 23]` and minute in `[0, 59]`. -/
def isValidTimeInput (t : String) : Prop :=
  ∃ a b hour minute, pySplit ':' (pyStrip t.data) = [a, b] ∧ pyInt a = some hour ∧
    pyInt b = some minute ∧ 0 ≤ hour ∧ hour ≤ 23 ∧ 0 ≤ minute ∧ minute ≤ 59

/-- Follows the spec's words for the `BookingRequest` time invariant:
the raw string consists of two colon-separated integer components with
hour in `[0, 23]` and minute in `[0, 59]` (`_validate_time_format`
does not strip the whole string first, but `int` strips each
component). -/
def isValidTimeFormat (t : String) : Prop :=
  ∃ a b hour minute, pySplit ':' t.data = [a, b] ∧ pyInt a = some hour ∧
    pyInt b = some minute ∧ 0 ≤ hour ∧ hour ≤ 23 ∧ 0 ≤ minute ∧ minute ≤ 59

/-! ### Helper lemmas -/

/-- The rush-hour condition holds exactly on hours 8, 9, 17, 18. -/
lemma rush_iff (h : ℕ) (d : ℚ) :
    surcharge_conditions "rush" h d = true ↔ (h = 8 ∨ h = 9 ∨ h = 17 ∨ h = 18) := by
  simp [surcharge_conditions, PricingConstants.RUSH_HOURS]
  omega

/-- The midnight condition holds exactly on hours 23 and 0-4. -/
lemma midnight_iff (h : ℕ) (d : ℚ) :
    surcharge_conditions "midnight" h d = true ↔ (h = 23 ∨ h ≤ 4) := by
  simp [surcharge_conditions, PricingConstants.MIDNIGHT_HOURS, List.mem_range']
  omega

/-- The outstation condition holds exactly when distance exceeds 200. -/
lemma outstation_iff (h : ℕ) (d : ℚ) :
    surcharge_conditions "outstation" h d = true ↔ 200 < d := by
  simp [surcharge_conditions, PricingConstants.OUTSTATION_THRESHOLD]

/-- The rush-hour condition ignores its distance argument. -/
lemma rush_distance_irrelevant (h : ℕ) (d d' : ℚ) :
    surcharge_conditions "rush" h d = surcharge_conditions "rush" h d' := rfl

/-- The midnight condition ignores its distance argument. -/
lemma midnight_distance_irrelevant (h : ℕ) (d d' : ℚ) :
    surcharge_conditions "midnight" h d = surcharge_conditions "midnight" h d' := rfl

/-- Closed form of the surcharge fold in `calculate_price`. -/
lemma calculate_price_eq (c : CabType) (d : ℚ) (h : ℕ) :
    calculate_price c d h =
      c.base_fare * (if surcharge_conditions "midnight" h d then 1 + (15 : ℚ)/100 else 1)
      + d * (c.per_km_rate * (if surcharge_conditions "rush" h d then 1 + (15 : ℚ)/100 else 1)
            * (if surcharge_conditions "outstation" h d then 1 + (14 : ℚ)/100 else 1)) := by
  cases hr : surcharge_conditions "rush" h d <;>
  cases hm : surcharge_conditions "midnight" h d <;>
  cases ho : surcharge_conditions "outstation" h d <;>
  simp [calculate_price, surchargeTypeList, SurchargeType.code, SurchargeType.applies_to,
    SurchargeType.multiplier, hr, hm, ho]

/-- Every tier's base fare is positive. -/
lemma base_fare_pos (c : CabType) : 0 < c.base_fare := by
  cases c <;> norm_num [CabType.base_fare]

/-- Every tier's per-km rate is positive. -/
lemma per_km_rate_pos (c : CabType) : 0 < c.per_km_rate := by
  cases c <;> norm_num [CabType.per_km_rate]

/-- `rne` rounds down when the value is below the halfway point (this
also covers exact integers). -/
lemma rne_eq_of_lt_half (x : ℚ) (m : ℤ) (h1 : (m : ℚ) ≤ x) (h2 : x < m + 1/2) :
    rne x = m := by
  have hf : ⌊x⌋ = m := Int.floor_eq_iff.mpr ⟨h1, by linarith⟩
  unfold rne
  rw [hf, if_pos (show x - (m : ℚ) < 1/2 by linarith)]

/-- `rne` rounds up when the value is above the halfway point. -/
lemma rne_eq_of_gt_half (x : ℚ) (m : ℤ) (h1 : (m : ℚ) + 1/2 < x) (h2 : x < m + 1) :
    rne x = m + 1 := by
  have hf : ⌊x⌋ = m := Int.floor_eq_iff.mpr ⟨by linarith, h2⟩
  unfold rne
  rw [hf, if_neg (show ¬(x - (m : ℚ) < 1/2) by linarith),
    if_pos (show 1/2 < x - (m : ℚ) by linarith)]

/-- `rne` rounds an exact tie with odd floor up to the even integer. -/
lemma rne_tie_odd (m : ℤ) (hodd : m % 2 = 1) : rne ((m : ℚ) + 1/2) = m + 1 := by
  have hf : ⌊(m : ℚ) + 1/2⌋ = m := Int.floor_eq_iff.mpr ⟨by linarith, by linarith⟩
  unfold rne
  rw [hf, if_neg (by linarith), if_neg (by linarith), if_neg (by omega)]

/-- The binade of a positive rational, for supplying `Int.log`
concretely. -/
lemma log2_eq (q : ℚ) (e : ℤ) (h0 : 0 < q) (h1 : (2 : ℚ) ^ e ≤ q)
    (h2 : q < (2 : ℚ) ^ (e + 1)) : Int.log 2 q = e := by
  have ha : e ≤ Int.log 2 q :=
    (Int.zpow_le_iff_le_log (by norm_num) h0).mp (by exact_mod_cast h1)
  have hb : Int.log 2 q < e + 1 :=
    (Int.lt_zpow_iff_log_lt (by norm_num) h0).mp (by exact_mod_cast h2)
  omega

/-- Evaluate `roundDouble` on a concrete positive rational by
supplying its binade and rounded significand. -/
lemma roundDouble_eval (q : ℚ) (e : ℤ) (m : ℤ) (h0 : 0 < q)
    (h1 : (2 : ℚ) ^ e ≤ q) (h2 : q < (2 : ℚ) ^ (e + 1))
    (h3 : rne (q / 2 ^ (e - 52)) = m) :
    roundDouble q = (m : ℚ) * 2 ^ (e - 52) := by
  unfold roundDouble
  rw [if_neg (ne_of_gt h0), if_neg (not_lt.mpr h0.le), log2_eq q e h0 h1 h2, h3]

/-- 50.0 is exactly representable as a double. -/
lemma rd_50 : roundDouble (50 : ℚ) = 50 := by
  rw [roundDouble_eval 50 5 7036874417766400 (by norm_num) (by norm_num) (by norm_num)
    (rne_eq_of_lt_half _ _ (by norm_num) (by norm_num))]
  norm_num

/-- 80.0 is exactly representable as a double. -/
lemma rd_80 : roundDouble (80 : ℚ) = 80 := by
  rw [roundDouble_eval 80 6 5629499534213120 (by norm_num) (by norm_num) (by norm_num)
    (rne_eq_of_lt_half _ _ (by norm_num) (by norm_num))]
  norm_num

/-- 120.0 is exactly representable as a double. -/
lemma rd_120 : roundDouble (120 : ℚ) = 120 := by
  rw [roundDouble_eval 120 6 8444249301319680 (by norm_num) (by norm_num) (by norm_num)
    (rne_eq_of_lt_half _ _ (by norm_num) (by norm_num))]
  norm_num

/-- 12.0 is exactly representable as a double. -/
lemma rd_12 : roundDouble (12 : ℚ) = 12 := by
  rw [roundDouble_eval 12 3 6755399441055744 (by norm_num) (by norm_num) (by norm_num)
    (rne_eq_of_lt_half _ _ (by norm_num) (by norm_num))]
  norm_num

/-- 18.0 is exactly representable as a double. -/
lemma rd_18 : roundDouble (18 : ℚ) = 18 := by
  rw [roundDouble_eval 18 4 5066549580791808 (by norm_num) (by norm_num) (by norm_num)
    (rne_eq_of_lt_half _ _ (by norm_num) (by norm_num))]
  norm_num

/-- 25.0 is exactly representable as a double. -/
lemma rd_25 : roundDouble (25 : ℚ) = 25 := by
  rw [roundDouble_eval 25 4 7036874417766400 (by norm_num) (by norm_num) (by norm_num)
    (rne_eq_of_lt_half _ _ (by norm_num) (by norm_num))]
  norm_num

/-- The double nearest the literal `0.15`
(`0.1499999999999999944488848768742172978818416595458984375`). -/
lemma rd_c015 : roundDouble (15/100 : ℚ) = 5404319552844595 / 2 ^ 55 := by
  rw [roundDouble_eval (15/100) (-3) 5404319552844595 (by norm_num) (by norm_num) (by norm_num)
    (rne_eq_of_lt_half _ _ (by norm_num) (by norm_num))]
  norm_num

/-- The double nearest the literal `0.14` (slightly above `0.14`). -/
lemma rd_c014 : roundDouble (14/100 : ℚ) = 5044031582654956 / 2 ^ 55 := by
  rw [roundDouble_eval (14/100) (-3) (5044031582654955 + 1) (by norm_num) (by norm_num)
    (by norm_num) (rne_eq_of_gt_half _ 5044031582654955 (by norm_num) (by norm_num))]
  push_cast
  norm_num

/-- `1 + 0.15` in doubles: the double just below `1.15`. -/
lemma fadd_1_c15 : fadd 1 (5404319552844595 / 2 ^ 55 : ℚ) = 5179139571476070 / 2 ^ 52 := by
  unfold fadd
  rw [roundDouble_eval _ 0 5179139571476070 (by norm_num) (by norm_num) (by norm_num)
    (rne_eq_of_lt_half _ _ (by norm_num) (by norm_num))]
  norm_num

/-- `1 + 0.14` in doubles: an exact tie resolved upward (odd floor),
giving `1.1400000000000001`, the double just above `1.14`. -/
lemma fadd_1_c14 : fadd 1 (5044031582654956 / 2 ^ 55 : ℚ) = 5134103575202366 / 2 ^ 52 := by
  unfold fadd
  have hx : ((1 : ℚ) + 5044031582654956 / 2 ^ 55) / 2 ^ ((0 : ℤ) - 52)
      = ((5134103575202365 : ℤ) : ℚ) + 1 / 2 := by
    push_cast
    norm_num
  have h3 : rne (((1 : ℚ) + 5044031582654956 / 2 ^ 55) / 2 ^ ((0 : ℤ) - 52))
      = 5134103575202365 + 1 := by
    rw [hx, rne_tie_odd 5134103575202365 (by norm_num)]
  rw [roundDouble_eval _ 0 (5134103575202365 + 1) (by norm_num) (by norm_num) (by norm_num) h3]
  push_cast
  norm_num

/-- `12.0 * (1 + 0.15)` in doubles: exactly representable product,
`13.799999999999999`. -/
lemma fmul_12_f115 :
    fmul 12 (5179139571476070 / 2 ^ 52 : ℚ) = 7768709357214105 / 2 ^ 49 := by
  unfold fmul
  rw [roundDouble_eval _ 3 7768709357214105 (by norm_num) (by norm_num) (by norm_num)
    (rne_eq_of_lt_half _ _ (by norm_num) (by norm_num))]
  norm_num

/-- `10 * 13.799999999999999` in doubles rounds up to exactly `138`. -/
lemma fmul_10_r1 : fmul 10 (7768709357214105 / 2 ^ 49 : ℚ) = 138 := by
  unfold fmul
  rw [roundDouble_eval _ 7 (4855443348258815 + 1) (by norm_num) (by norm_num) (by norm_num)
    (rne_eq_of_gt_half _ 4855443348258815 (by norm_num) (by norm_num))]
  push_cast
  norm_num

/-- `50 + 138` in doubles is exact. -/
lemma fadd_50_138 : fadd (50 : ℚ) 138 = 188 := by
  unfold fadd
  rw [roundDouble_eval _ 7 6614661952700416 (by norm_num) (by norm_num) (by norm_num)
    (rne_eq_of_lt_half _ _ (by norm_num) (by norm_num))]
  norm_num

/-- `50 * 18` in doubles is exact. -/
lemma fmul_50_18 : fmul (50 : ℚ) 18 = 900 := by
  unfold fmul
  rw [roundDouble_eval _ 9 7916483719987200 (by norm_num) (by norm_num) (by norm_num)
    (rne_eq_of_lt_half _ _ (by norm_num) (by norm_num))]
  norm_num

/-- `80 + 900` in doubles is exact. -/
lemma fadd_80_900 : fadd (80 : ℚ) 900 = 980 := by
  unfold fadd
  rw [roundDouble_eval _ 9 8620171161763840 (by norm_num) (by norm_num) (by norm_num)
    (rne_eq_of_lt_half _ _ (by norm_num) (by norm_num))]
  norm_num

/-- `120 * (1 + 0.15)` in doubles rounds up to exactly `138`. -/
lemma fmul_120_f115 : fmul 120 (5179139571476070 / 2 ^ 52 : ℚ) = 138 := by
  unfold fmul
  rw [roundDouble_eval _ 7 (4855443348258815 + 1) (by norm_num) (by norm_num) (by norm_num)
    (rne_eq_of_gt_half _ 4855443348258815 (by norm_num) (by norm_num))]
  push_cast
  norm_num

/-- `25 * (1 + 0.14)` in doubles: `28.500000000000004`, one ulp above
`28.5`. -/
lemma fmul_25_f114 :
    fmul 25 (5134103575202366 / 2 ^ 52 : ℚ) = 8022036836253697 / 2 ^ 48 := by
  unfold fmul
  rw [roundDouble_eval _ 4 (8022036836253696 + 1) (by norm_num) (by norm_num) (by norm_num)
    (rne_eq_of_gt_half _ 8022036836253696 (by norm_num) (by norm_num))]
  push_cast
  norm_num

/-- `300 * 28.500000000000004` in doubles: `8550.000000000002`. -/
lemma fmul_300_r3 :
    fmul 300 (8022036836253697 / 2 ^ 48 : ℚ) = 4700412208742401 / 2 ^ 39 := by
  unfold fmul
  rw [roundDouble_eval _ 13 (4700412208742400 + 1) (by norm_num) (by norm_num) (by norm_num)
    (rne_eq_of_gt_half _ 4700412208742400 (by norm_num) (by norm_num))]
  push_cast
  norm_num

/-- `138 + 8550.000000000002` in doubles: exactly representable sum
`8688 + 2^-39`. -/
lemma fadd_138_t3 :
    fadd (138 : ℚ) (4700412208742401 / 2 ^ 39) = 8688 + 1 / 2 ^ 39 := by
  unfold fadd
  rw [roundDouble_eval _ 13 4776278511058945 (by norm_num) (by norm_num) (by norm_num)
    (rne_eq_of_lt_half _ _ (by norm_num) (by norm_num))]
  norm_num

/-- The XL scenario under float semantics: only LateNight and
LongDistanceOutOfTown apply, and the fare is `8688 + 2^-39`
(`8688.000000000002`), one ulp above `8688`. -/
lemma calculate_price_fp_XL :
    calculate_price_fp CabType.UBER_XL 300 23 = 8688 + 1 / 2 ^ 39 := by
  have step : calculate_price_fp CabType.UBER_XL 300 23 =
      fadd (fmul (roundDouble 120) (fadd 1 (roundDouble (15/100))))
        (fmul 300 (fmul (roundDouble 25) (fadd 1 (roundDouble (14/100))))) := rfl
  rw [step, rd_120, rd_25, rd_c015, rd_c014, fadd_1_c15, fadd_1_c14, fmul_120_f115,
    fmul_25_f114, fmul_300_r3, fadd_138_t3]

/-- The Economy scenario under float semantics: only PeakHour applies
and the rounding errors cancel, giving exactly `188`. -/
lemma calculate_price_fp_GO : calculate_price_fp CabType.UBER_GO 10 8 = 188 := by
  have step : calculate_price_fp CabType.UBER_GO 10 8 =
      fadd (roundDouble 50) (fmul 10 (fmul (roundDouble 12) (fadd 1 (roundDouble (15/100))))) :=
    rfl
  rw [step, rd_50, rd_12, rd_c015, fadd_1_c15, fmul_12_f115, fmul_10_r1, fadd_50_138]

/-- The Sedan scenario under float semantics: no surcharge applies and
every operation is exact, giving exactly `980`. -/
lemma calculate_price_fp_SEDAN : calculate_price_fp CabType.UBER_SEDAN 50 14 = 980 := by
  have step : calculate_price_fp CabType.UBER_SEDAN 50 14 =
      fadd (roundDouble 80) (fmul 50 (roundDouble 18)) := rfl
  rw [step, rd_80, rd_18, fmul_50_18, fadd_80_900]

/-- `validate_time` succeeds exactly on valid two-component inputs. -/
lemma validate_time_ok_iff (t : String) :
    (∃ out, validate_time t = Except.ok out) ↔ isValidTimeInput t := by
  unfold validate_time validate_time_try isValidTimeInput
  rcases hs : pySplit ':' (pyStrip t.data) with _ | ⟨a, _ | ⟨b, _ | ⟨c, rest⟩⟩⟩
  · simp [hs]
  · simp [hs]
  · rcases ha : pyInt a with _ | hour
    · simp [hs, ha]
    · rcases hb : pyInt b with _ | minute
      · simp [hs, ha, hb]
      · by_cases hr : 0 ≤ hour ∧ hour ≤ 23 ∧ 0 ≤ minute ∧ minute ≤ 59
        · simp only [hs, ha, hb, if_pos hr]
          simp
          exact ⟨a, b, ⟨rfl, rfl⟩, hour, ha, minute, hb, hr.1, hr.2.1, hr.2.2.1, hr.2.2.2⟩
        · simp [hs, ha, hb, hr]
          omega
  · simp [hs]

/-- On success `validate_time` returns the zero-padded canonical
form. -/
lemma validate_time_ok_form (t : String) (a b : List Char) (hour minute : ℤ)
    (hs : pySplit ':' (pyStrip t.data) = [a, b]) (ha : pyInt a = some hour)
    (hb : pyInt b = some minute) (h1 : 0 ≤ hour) (h2 : hour ≤ 23)
    (h3 : 0 ≤ minute) (h4 : minute ≤ 59) :
    validate_time t = Except.ok (pad2 hour ++ ":" ++ pad2 minute) := by
  unfold validate_time validate_time_try
  simp [hs, ha, hb, h1, h2, h3, h4]

/-- `_validate_time_format` accepts exactly valid two-component raw
strings. -/
lemma validate_time_format_ok_iff (t : String) :
    validate_time_format t = Except.ok () ↔ isValidTimeFormat t := by
  unfold validate_time_format validate_time_format_try isValidTimeFormat
  rcases hs : pySplit ':' t.data with _ | ⟨a, _ | ⟨b, _ | ⟨c, rest⟩⟩⟩
  · simp [hs]
  · simp [hs]
  · rcases ha : pyInt a with _ | hour
    · simp [hs, ha]
    · rcases hb : pyInt b with _ | minute
      · simp [hs, ha, hb]
      · by_cases hr : 0 ≤ hour ∧ hour ≤ 23 ∧ 0 ≤ minute ∧ minute ≤ 59
        · simp only [hs, ha, hb, if_pos hr]
          simp
          exact ⟨a, b, ⟨rfl, rfl⟩, hour, ha, minute, hb, hr.1, hr.2.1, hr.2.2.1, hr.2.2.2⟩
        · simp [hs, ha, hb, hr]
          omega
  · simp [hs]

/-! ### Claim theorems -/

/-- C1: for every tier, distance `d > 0` and hour `h` in `[0, 23]`,
`calculate_price` equals the spec's pipeline: visit the rules in the
fixed order PeakHour, LateNight, LongDistanceOutOfTown, multiply the
targeted field by `1 + multiplier` exactly when the predicate holds,
multipliers on a field compounding multiplicatively, and return
adjusted base fare + distance × adjusted per-unit rate. -/
theorem calculate_price_refines_spec (c : CabType) (d : ℚ) (h : ℕ)
    (hd : 0 < d) (hh : h ≤ 23) :
    calculate_price c d h = specPrice c d h := by
  rw [calculate_price_eq]
  unfold specPrice
  rw [if_congr (midnight_iff h d) rfl rfl, if_congr (rush_iff h d) rfl rfl,
    if_congr (outstation_iff h d) rfl rfl]

/-- Witness for C1: the refinement theorem applied at tier Economy,
distance 10, hour 8. -/
theorem calculate_price_refines_spec_witness :
    0 < (10 : ℚ) ∧ (8 : ℕ) ≤ 23 ∧
      calculate_price CabType.UBER_GO 10 8 = specPrice CabType.UBER_GO 10 8 :=
  ⟨by norm_num, by norm_num,
    calculate_price_refines_spec CabType.UBER_GO 10 8 (by norm_num) (by norm_num)⟩

/-- C2: for every hour and distance, PeakHour (15%, per-unit rate)
applies iff `h ∈ {8, 9, 17, 18}`; LateNight (15%, base fare) applies
iff `h ∈ {23, 0, 1, 2, 3, 4}` — so `h = 22` and `h = 5` trigger
nothing — and LongDistanceOutOfTown (14%, per-unit rate) applies iff
`d > 200`, so `d = 200` triggers nothing and `d = 200.01` does,
independent of hour. -/
theorem surcharge_predicate_characterization (h : ℕ) (d : ℚ) :
    (surcharge_conditions "rush" h d = true ↔ (h = 8 ∨ h = 9 ∨ h = 17 ∨ h = 18))
    ∧ SurchargeType.RUSH_HOUR.multiplier = 15/100
    ∧ SurchargeType.RUSH_HOUR.applies_to = "per_km"
    ∧ (surcharge_conditions "midnight" h d = true ↔ (h = 23 ∨ h ≤ 4))
    ∧ SurchargeType.MIDNIGHT.multiplier = 15/100
    ∧ SurchargeType.MIDNIGHT.applies_to = "base_fare"
    ∧ surcharge_conditions "midnight" 22 d = false
    ∧ surcharge_conditions "midnight" 5 d = false
    ∧ surcharge_conditions "rush" 22 d = false
    ∧ surcharge_conditions "rush" 5 d = false
    ∧ (surcharge_conditions "outstation" h d = true ↔ 200 < d)
    ∧ SurchargeType.OUTSTATION.multiplier = 14/100
    ∧ SurchargeType.OUTSTATION.applies_to = "per_km"
    ∧ surcharge_conditions "outstation" h (200 : ℚ) = false
    ∧ surcharge_conditions "outstation" h (200.01 : ℚ) = true :=
  ⟨rush_iff h d, rfl, rfl, midnight_iff h d, rfl, rfl, rfl, rfl, rfl, rfl,
    outstation_iff h d, rfl, rfl, rfl, by rw [outstation_iff]; norm_num⟩

/-- C3 (counterexample): the claimed exact equality
`price(XL, 300, 23) = 8688.0` is false of the program: under the
source's IEEE binary64 float arithmetic the XL scenario computes
`8688 + 2^-39` (`8688.000000000002`), because `1 + 0.14` rounds to
`1.1400000000000001` and `25.0 * that` to `28.500000000000004`. -/
theorem end_to_end_prices_float_counterexample :
    calculate_price_fp CabType.UBER_XL 300 23 ≠ 8688
    ∧ calculate_price_fp CabType.UBER_XL 300 23 = 8688 + 1 / 2 ^ 39 := by
  constructor
  · rw [calculate_price_fp_XL]
    norm_num
  · exact calculate_price_fp_XL

/-- C3 (amended): the Economy and Sedan scenario fares hold exactly
even under IEEE binary64 arithmetic (`188` and `980` — the rounding
errors cancel); the XL scenario fare is `8688 + 2^-39`
(`8688.000000000002`, displayed as `8688.00`) under binary64
arithmetic, and exactly `8688` under exact rational arithmetic. -/
theorem end_to_end_prices_amended :
    calculate_price_fp CabType.UBER_GO 10 8 = 188
    ∧ calculate_price_fp CabType.UBER_SEDAN 50 14 = 980
    ∧ calculate_price_fp CabType.UBER_XL 300 23 = 8688 + 1 / 2 ^ 39
    ∧ calculate_price CabType.UBER_GO 10 8 = 188
    ∧ calculate_price CabType.UBER_SEDAN 50 14 = 980
    ∧ calculate_price CabType.UBER_XL 300 23 = 8688 := by
  refine ⟨calculate_price_fp_GO, calculate_price_fp_SEDAN, calculate_price_fp_XL,
    ?_, ?_, ?_⟩ <;>
  norm_num [calculate_price_eq, rush_iff, midnight_iff, outstation_iff,
    CabType.base_fare, CabType.per_km_rate]

/-- C4 (code evaluation): the distance validator's `except ValueError`
clause collapses the non-positive failure into the same
`"Invalid distance format"` failure as non-numeric input — the `try`
block raises distinct errors (`"Distance must be positive"` versus
the float parse failure), but the wrapper re-raises one identical
message for both, so `"0"` and `"-5"` fail indistinguishably from
`"abc"`, while `"12.5"` succeeds with `12.5`. -/
theorem distance_validator_error_collapse :
    validate_distance "0" = Except.error "Invalid distance format"
    ∧ validate_distance "-5" = Except.error "Invalid distance format"
    ∧ validate_distance "abc" = Except.error "Invalid distance format"
    ∧ validate_distance_try "0" = Except.error "Distance must be positive"
    ∧ validate_distance_try "abc" = Except.error "could not convert string to float"
    ∧ validate_distance "12.5" = Except.ok (25/2 : ℚ) := by
  refine ⟨rfl, rfl, rfl, rfl, rfl, ?_⟩
  have h : pyFloat "12.5" = some ((12 : ℚ) + (5 : ℚ) / (10 : ℚ) ^ 1) := rfl
  have hv : ((12 : ℚ) + (5 : ℚ) / 10) = 25/2 := by norm_num
  have hpos : ¬((25 : ℚ) / 2 ≤ 0) := by norm_num
  simp [validate_distance, validate_distance_try, h, hv, hpos]

/-- C5: the time validator succeeds exactly on inputs consisting of
two colon-separated integer components with hour in `[0, 23]` and
minute in `[0, 59]`, returning the zero-padded canonical `"HH:MM"`
form on success; `"24:00"` and `"23:60"` fail and `"9:5"` succeeds
returning `"09:05"`. -/
theorem time_validator_characterization (t : String) :
    ((∃ out, validate_time t = Except.ok out) ↔ isValidTimeInput t)
    ∧ (∀ a b hour minute, pySplit ':' (pyStrip t.data) = [a, b] → pyInt a = some hour →
        pyInt b = some minute → 0 ≤ hour → hour ≤ 23 → 0 ≤ minute → minute ≤ 59 →
        validate_time t = Except.ok (pad2 hour ++ ":" ++ pad2 minute))
    ∧ validate_time "24:00" = Except.error "Time must be in HH:MM format"
    ∧ validate_time "23:60" = Except.error "Time must be in HH:MM format"
    ∧ validate_time "9:5" = Except.ok "09:05" :=
  ⟨validate_time_ok_iff t,
    fun a b hour minute hs ha hb h1 h2 h3 h4 =>
      validate_time_ok_form t a b hour minute hs ha hb h1 h2 h3 h4,
    rfl, rfl, rfl⟩

/-- C6: for every tier and fixed hour, the price is monotonically
non-decreasing in distance: `0 < d1 ≤ d2` implies
`price(tier, d1, h) ≤ price(tier, d2, h)`. -/
theorem price_monotone_in_distance (c : CabType) (d1 d2 : ℚ) (h : ℕ)
    (hd1 : 0 < d1) (hle : d1 ≤ d2) :
    calculate_price c d1 h ≤ calculate_price c d2 h := by
  rw [calculate_price_eq, calculate_price_eq,
    midnight_distance_irrelevant h d2 d1, rush_distance_irrelevant h d2 d1]
  have hb := base_fare_pos c
  have hr := per_km_rate_pos c
  have hdr := mul_le_mul_of_nonneg_right hle hr.le
  have hdp := mul_pos hd1 hr
  rcases h1 : surcharge_conditions "outstation" h d1 <;>
  rcases h2 : surcharge_conditions "outstation" h d2
  · simp only [Bool.false_eq_true, if_false]
    split_ifs <;> nlinarith
  · simp
    split_ifs <;> nlinarith
  · exact absurd ((outstation_iff h d2).mpr (lt_of_lt_of_le ((outstation_iff h d1).mp h1) hle))
      (by simp [h2])
  · simp
    split_ifs <;> nlinarith

/-- Witness for C6: monotonicity applied at tier Economy, distances 1
and 2, hour 0. -/
theorem price_monotone_in_distance_witness :
    0 < (1 : ℚ) ∧ (1 : ℚ) ≤ 2 ∧
      calculate_price CabType.UBER_GO 1 0 ≤ calculate_price CabType.UBER_GO 2 0 :=
  ⟨by norm_num, by norm_num,
    price_monotone_in_distance CabType.UBER_GO 1 2 0 (by norm_num) (by norm_num)⟩

/-- C7: `get_all_options` returns exactly one priced option per tier
in declaration order Economy, Sedan, XL, each priced by
`calculate_price`; `get_surcharge_messages` returns exactly the
messages of the applicable rules in declaration order, and is empty
precisely when no rule applies. -/
theorem options_and_messages_order (d : ℚ) (h : ℕ) :
    get_all_options d h =
      [⟨CabType.UBER_GO, calculate_price CabType.UBER_GO d h⟩,
       ⟨CabType.UBER_SEDAN, calculate_price CabType.UBER_SEDAN d h⟩,
       ⟨CabType.UBER_XL, calculate_price CabType.UBER_XL d h⟩]
    ∧ get_surcharge_messages d h =
        (surchargeTypeList.filter (fun s => surcharge_conditions s.code h d)).map
          SurchargeType.message
    ∧ (get_surcharge_messages d h = [] ↔
        ∀ s ∈ surchargeTypeList, surcharge_conditions s.code h d = false) := by
  refine ⟨by simp [get_all_options, cabTypeList], ?_, ?_⟩
  · cases hr : surcharge_conditions "rush" h d <;>
    cases hm : surcharge_conditions "midnight" h d <;>
    cases ho : surcharge_conditions "outstation" h d <;>
    simp [get_surcharge_messages, surchargeTypeList, SurchargeType.code, List.filter,
      hr, hm, ho]
  · cases hr : surcharge_conditions "rush" h d <;>
    cases hm : surcharge_conditions "midnight" h d <;>
    cases ho : surcharge_conditions "outstation" h d <;>
    simp [get_surcharge_messages, surchargeTypeList, SurchargeType.code, hr, hm, ho]

/-- C8: constructing a `BookingRequest` succeeds iff the distance is
positive, the username and destination are non-blank after trimming,
and the booking time parses as two colon-separated integers with hour
in `[0, 23]` and minute in `[0, 59]`; every successfully constructed
request satisfies all four invariants. -/
theorem booking_request_invariants (u dst : String) (d : ℚ) (t : String) :
    ((∃ r, mkBookingRequest u dst d t = Except.ok r) ↔
      (0 < d ∧ pyStrip u.data ≠ [] ∧ pyStrip dst.data ≠ [] ∧ isValidTimeFormat t))
    ∧ (∀ r, mkBookingRequest u dst d t = Except.ok r →
        0 < r.distance_km ∧ pyStrip r.username.data ≠ [] ∧
        pyStrip r.destination.data ≠ [] ∧ isValidTimeFormat r.booking_time) := by
  have hmain : (∃ r, mkBookingRequest u dst d t = Except.ok r) ↔
      (0 < d ∧ pyStrip u.data ≠ [] ∧ pyStrip dst.data ≠ [] ∧ isValidTimeFormat t) := by
    unfold mkBookingRequest
    split_ifs with h1 h2 h3
    · simp [not_lt.mpr h1]
    · simp [h2]
    · simp [h3]
    · rcases hv : validate_time_format t with e | u0
      · have hP : ¬ isValidTimeFormat t := by
          rw [← validate_time_format_ok_iff, hv]
          simp
        simp [hv, hP]
      · have hP : isValidTimeFormat t := (validate_time_format_ok_iff t).mp (by rw [hv])
        simp [hv, hP, not_le.mp h1, h2, h3]
  refine ⟨hmain, ?_⟩
  intro r hr
  unfold mkBookingRequest at hr
  split_ifs at hr with h1 h2 h3
  rcases hv : validate_time_format t with e | u0
  · rw [hv] at hr
    exact absurd hr (by simp)
  · rw [hv] at hr
    have hP : isValidTimeFormat t := (validate_time_format_ok_iff t).mp (by rw [hv])
    cases hr
    exact ⟨not_le.mp h1, h2, h3, hP⟩

/-- C9: for every tier, distance `d > 0` and hour, the computed price
is at least the unadjusted `base fare + d × per-unit rate` — the
surcharges only ever increase the fare — and is strictly positive. -/
theorem price_lower_bound (c : CabType) (d : ℚ) (h : ℕ) (hd : 0 < d) :
    c.base_fare + d * c.per_km_rate ≤ calculate_price c d h
    ∧ 0 < calculate_price c d h := by
  rw [calculate_price_eq]
  have hb := base_fare_pos c
  have hr := per_km_rate_pos c
  have hdp := mul_pos hd hr
  constructor <;> split_ifs <;> nlinarith

/-- Witness for C9: the lower bound applied at tier Economy, distance
1, hour 0. -/
theorem price_lower_bound_witness :
    0 < (1 : ℚ) ∧
      (CabType.UBER_GO.base_fare + 1 * CabType.UBER_GO.per_km_rate ≤
        calculate_price CabType.UBER_GO 1 0
      ∧ 0 < calculate_price CabType.UBER_GO 1 0) :=
  ⟨by norm_num, price_lower_bound CabType.UBER_GO 1 0 (by norm_num)⟩

/-- C10: the rush-hour and midnight hour sets are disjoint, so at most
one time-based surcharge applies, at most two surcharges apply in
total, the only rule targeting the base fare is LateNight, and the
only pair of distinct rules targeting the same (per-unit-rate) field
is PeakHour with LongDistanceOutOfTown. -/
theorem surcharge_disjointness (h : ℕ) (d : ℚ) :
    (¬(surcharge_conditions "rush" h d = true ∧ surcharge_conditions "midnight" h d = true))
    ∧ (surchargeTypeList.filter (fun s => surcharge_conditions s.code h d)).length ≤ 2
    ∧ (∀ s : SurchargeType, s.applies_to = "base_fare" → s = SurchargeType.MIDNIGHT)
    ∧ (∀ s1 s2 : SurchargeType, s1 ≠ s2 → s1.applies_to = "per_km" → s2.applies_to = "per_km" →
        (s1 = SurchargeType.RUSH_HOUR ∧ s2 = SurchargeType.OUTSTATION) ∨
        (s1 = SurchargeType.OUTSTATION ∧ s2 = SurchargeType.RUSH_HOUR)) := by
  have hdisj : ¬(surcharge_conditions "rush" h d = true ∧
      surcharge_conditions "midnight" h d = true) := by
    rintro ⟨hr, hm⟩
    have h1 := (rush_iff h d).mp hr
    have h2 := (midnight_iff h d).mp hm
    omega
  refine ⟨hdisj, ?_, ?_, ?_⟩
  · cases hr : surcharge_conditions "rush" h d <;>
    cases hm : surcharge_conditions "midnight" h d <;>
    cases ho : surcharge_conditions "outstation" h d <;>
    simp [surchargeTypeList, List.filter, SurchargeType.code, hr, hm, ho]
    exact absurd ⟨hr, hm⟩ hdisj
  · intro s hs
    cases s
    · exact absurd hs (by decide)
    · rfl
    · exact absurd hs (by decide)
  · intro s1 s2 hne ha1 ha2
    cases s1 <;> cases s2 <;>
    first
      | exact absurd rfl hne
      | exact absurd ha1 (by decide)
      | exact absurd ha2 (by decide)
      | exact Or.inl ⟨rfl, rfl⟩
      | exact Or.inr ⟨rfl, rfl⟩

end UberSK
